import Mathlib

/-!
Shallow embedding of the constant-product AMM simulator (`src/main.cpp`).

The C++ core computes over `double`; the spec reasons about the formulas in
exact real arithmetic.  We embed the arithmetic over `ℚ` (exact, executable)
and model `throw std::runtime_error(msg)` as `Except.error msg`.
-/

namespace AmmSim

instance {ε α : Type} [DecidableEq ε] [DecidableEq α] : DecidableEq (Except ε α) := fun
  | .ok a, .ok b => decidable_of_iff (a = b) (by simp)
  | .ok _, .error _ => isFalse (by simp)
  | .error _, .ok _ => isFalse (by simp)
  | .error e, .error f => decidable_of_iff (e = f) (by simp)

/-- Mirrors `static void require(bool cond, const std::string& msg)` from
`src/main.cpp`: succeeds when the condition holds, otherwise throws
(here: returns) the error message. -/
def require (cond : Prop) [Decidable cond] (msg : String) : Except String Unit :=
  if cond then .ok () else .error msg

/-- Mirrors `static double getAmountOut(double amountIn, double reserveIn,
double reserveOut, double fee)` from `src/main.cpp`: validation followed by
the Uniswap-v2-style constant-product formula
`amountOut = (amountIn*(1-fee) * reserveOut) / (reserveIn + amountIn*(1-fee))`. -/
def getAmountOut (amountIn reserveIn reserveOut fee : ℚ) : Except String ℚ := do
  require (amountIn > 0) "amountIn must be > 0"
  require (reserveIn > 0 ∧ reserveOut > 0) "reserves must be > 0"
  require (fee ≥ 0 ∧ fee < 1) "fee must be in [0, 1)"
  let amountInWithFee := amountIn * (1 - fee)
  return (amountInWithFee * reserveOut) / (reserveIn + amountInWithFee)

/-- Mirrors `struct SwapResult` from `src/main.cpp`. -/
structure SwapResult where
  amountOut : ℚ
  newReserveA : ℚ
  newReserveB : ℚ
  effectivePrice : ℚ
  slippagePercent : ℚ
  deriving DecidableEq

/-- Mirrors `(char)std::toupper((unsigned char)c)` as applied in
`simulateSwap` (ASCII / "C" locale semantics): lowercase `a`..`z` maps to
`A`..`Z`, every other character is unchanged. -/
def toUpperChar (c : Char) : Char :=
  if 'a' ≤ c ∧ c ≤ 'z' then Char.ofNat (c.toNat - 32) else c

/-- The direction-normalization loop of `simulateSwap`:
`for (auto& c : direction) c = (char)std::toupper((unsigned char)c);`. -/
def normalizeDirection (s : String) : String :=
  ⟨s.data.map toUpperChar⟩

/-- Mirrors `static SwapResult simulateSwap(double reserveA, double reserveB,
double fee, const std::string& directionRaw, double amountIn)` from
`src/main.cpp`: validates the reserves and the (case-normalized) direction,
quotes via `getAmountOut`, re-asserts the pool-drain bound, and assembles the
result record with post-trade reserves, effective price and slippage. -/
def simulateSwap (reserveA reserveB fee : ℚ) (directionRaw : String)
    (amountIn : ℚ) : Except String SwapResult := do
  require (reserveA > 0 ∧ reserveB > 0) "reserveA and reserveB must be > 0"
  let direction := normalizeDirection directionRaw
  require (direction = "A2B" ∨ direction = "B2A") "direction must be A2B or B2A"
  if direction = "A2B" then
    let P0 := reserveB / reserveA
    let out ← getAmountOut amountIn reserveA reserveB fee
    require (out < reserveB) "amountOut would drain the pool (invalid trade)"
    let eff := out / amountIn
    return { amountOut := out
             newReserveA := reserveA + amountIn
             newReserveB := reserveB - out
             effectivePrice := eff
             slippagePercent := (P0 - eff) / P0 * 100 }
  else
    let P0 := reserveA / reserveB
    let out ← getAmountOut amountIn reserveB reserveA fee
    require (out < reserveA) "amountOut would drain the pool (invalid trade)"
    let eff := out / amountIn
    return { amountOut := out
             newReserveA := reserveA - out
             newReserveB := reserveB + amountIn
             effectivePrice := eff
             slippagePercent := (P0 - eff) / P0 * 100 }

/-! ### Normalization facts for the concrete direction strings -/

lemma normDir_A2B : normalizeDirection "A2B" = "A2B" := by decide

lemma normDir_B2A : normalizeDirection "B2A" = "B2A" := by decide

lemma normDir_a2b : normalizeDirection "a2b" = "A2B" := by decide

lemma normDir_b2a : normalizeDirection "b2a" = "B2A" := by decide

/-! ### Algebraic facts about the constant-product formula over ℚ -/

section QuoteAlgebra

variable {x ri ro f : ℚ}

lemma quoteFormula_pos (hx : 0 < x) (hri : 0 < ri) (hro : 0 < ro)
    (hf0 : 0 ≤ f) (hf1 : f < 1) :
    0 < x * (1 - f) * ro / (ri + x * (1 - f)) := by
  have hc : 0 < x * (1 - f) := mul_pos hx (by linarith)
  exact div_pos (mul_pos hc hro) (by linarith)

lemma quoteFormula_lt (hx : 0 < x) (hri : 0 < ri) (hro : 0 < ro)
    (hf0 : 0 ≤ f) (hf1 : f < 1) :
    x * (1 - f) * ro / (ri + x * (1 - f)) < ro := by
  have hc : 0 < x * (1 - f) := mul_pos hx (by linarith)
  rw [div_lt_iff₀ (by linarith)]
  nlinarith [mul_pos hri hro]

lemma quoteFormula_strictMono {x₁ x₂ : ℚ} (hx₁ : 0 < x₁) (hx₁₂ : x₁ < x₂)
    (hri : 0 < ri) (hro : 0 < ro) (hf0 : 0 ≤ f) (hf1 : f < 1) :
    x₁ * (1 - f) * ro / (ri + x₁ * (1 - f)) <
      x₂ * (1 - f) * ro / (ri + x₂ * (1 - f)) := by
  have hf : 0 < 1 - f := by linarith
  have hc₁ : 0 < x₁ * (1 - f) := mul_pos hx₁ hf
  have hc₂ : 0 < x₂ * (1 - f) := mul_pos (lt_trans hx₁ hx₁₂) hf
  rw [div_lt_div_iff₀ (by linarith) (by linarith)]
  nlinarith [mul_pos hri hro, mul_pos (mul_pos hri hro) hf]

end QuoteAlgebra

/-! ### Run / error lemmas for `getAmountOut` -/

section GetAmountOutLemmas

variable {x ri ro f : ℚ}

lemma getAmountOut_eq_ok (hx : x > 0) (hri : ri > 0) (hro : ro > 0)
    (hf0 : f ≥ 0) (hf1 : f < 1) :
    getAmountOut x ri ro f =
      .ok (x * (1 - f) * ro / (ri + x * (1 - f))) := by
  unfold getAmountOut require
  rw [if_pos hx, if_pos (And.intro hri hro), if_pos (And.intro hf0 hf1)]
  rfl

lemma getAmountOut_err_amountIn (hx : ¬ x > 0) :
    getAmountOut x ri ro f = .error "amountIn must be > 0" := by
  unfold getAmountOut require
  rw [if_neg hx]
  rfl

lemma getAmountOut_err_reserves (hx : x > 0) (hr : ¬ (ri > 0 ∧ ro > 0)) :
    getAmountOut x ri ro f = .error "reserves must be > 0" := by
  unfold getAmountOut require
  rw [if_pos hx, if_neg hr]
  rfl

lemma getAmountOut_err_fee (hx : x > 0) (hri : ri > 0) (hro : ro > 0)
    (hf : ¬ (f ≥ 0 ∧ f < 1)) :
    getAmountOut x ri ro f = .error "fee must be in [0, 1)" := by
  unfold getAmountOut require
  rw [if_pos hx, if_pos (And.intro hri hro), if_neg hf]
  rfl

end GetAmountOutLemmas

/-! ### Run / error lemmas for `simulateSwap` -/

section SimulateSwapLemmas

variable {A B f x : ℚ} {d : String}

lemma ne_B2A_A2B : ("B2A" : String) ≠ "A2B" := by decide

lemma simulateSwap_err_reserves (h : ¬ (A > 0 ∧ B > 0)) :
    simulateSwap A B f d x = .error "reserveA and reserveB must be > 0" := by
  unfold simulateSwap require
  rw [if_neg h]
  rfl

lemma simulateSwap_err_direction (hAB : A > 0 ∧ B > 0)
    (h1 : normalizeDirection d ≠ "A2B") (h2 : normalizeDirection d ≠ "B2A") :
    simulateSwap A B f d x = .error "direction must be A2B or B2A" := by
  simp [simulateSwap, require, hAB.1, hAB.2, h1, h2, bind, Except.bind]

lemma simulateSwap_run_A2B (hd : normalizeDirection d = "A2B")
    (hA : A > 0) (hB : B > 0) (hx : x > 0) (hf0 : f ≥ 0) (hf1 : f < 1) :
    simulateSwap A B f d x =
      .ok { amountOut := x * (1 - f) * B / (A + x * (1 - f))
            newReserveA := A + x
            newReserveB := B - x * (1 - f) * B / (A + x * (1 - f))
            effectivePrice := x * (1 - f) * B / (A + x * (1 - f)) / x
            slippagePercent :=
              (B / A - x * (1 - f) * B / (A + x * (1 - f)) / x) / (B / A) * 100 } := by
  simp [simulateSwap, require, hd, hA, hB,
    getAmountOut_eq_ok hx hA hB hf0 hf1, quoteFormula_lt hx hA hB hf0 hf1,
    ne_B2A_A2B, bind, Except.bind, pure, Except.pure]

lemma simulateSwap_run_B2A (hd : normalizeDirection d = "B2A")
    (hA : A > 0) (hB : B > 0) (hx : x > 0) (hf0 : f ≥ 0) (hf1 : f < 1) :
    simulateSwap A B f d x =
      .ok { amountOut := x * (1 - f) * A / (B + x * (1 - f))
            newReserveA := A - x * (1 - f) * A / (B + x * (1 - f))
            newReserveB := B + x
            effectivePrice := x * (1 - f) * A / (B + x * (1 - f)) / x
            slippagePercent :=
              (A / B - x * (1 - f) * A / (B + x * (1 - f)) / x) / (A / B) * 100 } := by
  simp [simulateSwap, require, hd, hA, hB,
    getAmountOut_eq_ok hx hB hA hf0 hf1, quoteFormula_lt hx hB hA hf0 hf1,
    ne_B2A_A2B, bind, Except.bind, pure, Except.pure]

lemma simulateSwap_err_amountIn (hAB : A > 0 ∧ B > 0)
    (hd : normalizeDirection d = "A2B" ∨ normalizeDirection d = "B2A")
    (hx : ¬ x > 0) :
    simulateSwap A B f d x = .error "amountIn must be > 0" := by
  rcases hd with hd | hd <;>
    simp [simulateSwap, require, hd, hAB.1, hAB.2,
      getAmountOut_err_amountIn hx, ne_B2A_A2B, bind, Except.bind]

lemma simulateSwap_err_fee (hAB : A > 0 ∧ B > 0)
    (hd : normalizeDirection d = "A2B" ∨ normalizeDirection d = "B2A")
    (hx : x > 0) (hf : ¬ (f ≥ 0 ∧ f < 1)) :
    simulateSwap A B f d x = .error "fee must be in [0, 1)" := by
  rcases hd with hd | hd
  · simp [simulateSwap, require, hd, hAB.1, hAB.2,
      getAmountOut_err_fee hx hAB.1 hAB.2 hf, ne_B2A_A2B, bind, Except.bind]
  · simp [simulateSwap, require, hd, hAB.1, hAB.2,
      getAmountOut_err_fee hx hAB.2 hAB.1 hf, ne_B2A_A2B, bind, Except.bind]

lemma simulateSwap_congr {d' : String}
    (hdd : normalizeDirection d = normalizeDirection d') :
    simulateSwap A B f d x = simulateSwap A B f d' x := by
  unfold simulateSwap
  rw [hdd]

/-- Full inversion: a successful `simulateSwap` call forces all validations to
have passed and determines the result record from the chosen branch. -/
lemma simulateSwap_ok_inv {r : SwapResult}
    (h : simulateSwap A B f d x = .ok r) :
    0 < A ∧ 0 < B ∧ 0 < x ∧ 0 ≤ f ∧ f < 1 ∧
      ((normalizeDirection d = "A2B" ∧
        r = { amountOut := x * (1 - f) * B / (A + x * (1 - f))
              newReserveA := A + x
              newReserveB := B - x * (1 - f) * B / (A + x * (1 - f))
              effectivePrice := x * (1 - f) * B / (A + x * (1 - f)) / x
              slippagePercent :=
                (B / A - x * (1 - f) * B / (A + x * (1 - f)) / x) / (B / A) * 100 }) ∨
       (normalizeDirection d = "B2A" ∧
        r = { amountOut := x * (1 - f) * A / (B + x * (1 - f))
              newReserveA := A - x * (1 - f) * A / (B + x * (1 - f))
              newReserveB := B + x
              effectivePrice := x * (1 - f) * A / (B + x * (1 - f)) / x
              slippagePercent :=
                (A / B - x * (1 - f) * A / (B + x * (1 - f)) / x) / (A / B) * 100 })) := by
  by_cases hAB : A > 0 ∧ B > 0
  · by_cases hd : normalizeDirection d = "A2B" ∨ normalizeDirection d = "B2A"
    · by_cases hx : x > 0
      · by_cases hf : f ≥ 0 ∧ f < 1
        · refine ⟨hAB.1, hAB.2, hx, hf.1, hf.2, ?_⟩
          rcases hd with hd | hd
          · left
            rw [simulateSwap_run_A2B hd hAB.1 hAB.2 hx hf.1 hf.2] at h
            exact ⟨hd, (Except.ok.inj h).symm⟩
          · right
            rw [simulateSwap_run_B2A hd hAB.1 hAB.2 hx hf.1 hf.2] at h
            exact ⟨hd, (Except.ok.inj h).symm⟩
        · rw [simulateSwap_err_fee hAB hd hx hf] at h
          exact absurd h (by simp)
      · rw [simulateSwap_err_amountIn hAB hd hx] at h
        exact absurd h (by simp)
    · push_neg at hd
      rw [simulateSwap_err_direction hAB hd.1 hd.2] at h
      exact absurd h (by simp)
  · rw [simulateSwap_err_reserves hAB] at h
    exact absurd h (by simp)

end SimulateSwapLemmas

/-! ### Algebra for slippage and the reserve-product invariant -/

section DerivedAlgebra

variable {ri ro f x : ℚ}

/-- The effective price never exceeds the spot price, so the slippage
percentage `(P0 - eff) / P0 * 100` is non-negative (in-reserve `ri`,
out-reserve `ro`). -/
lemma slippage_nonneg_aux (hri : 0 < ri) (hro : 0 < ro) (hx : 0 < x)
    (hf0 : 0 ≤ f) (hf1 : f < 1) :
    0 ≤ (ro / ri - x * (1 - f) * ro / (ri + x * (1 - f)) / x) / (ro / ri) * 100 := by
  have hc : 0 < x * (1 - f) := mul_pos hx (by linarith)
  have hP0 : 0 < ro / ri := div_pos hro hri
  have heff : x * (1 - f) * ro / (ri + x * (1 - f)) / x ≤ ro / ri := by
    rw [div_div, div_le_div_iff₀ (by positivity) hri]
    nlinarith [mul_nonneg (mul_nonneg (mul_nonneg hf0 hx.le) hri.le) hro.le,
      mul_pos (mul_pos hx hx) (mul_pos hro (show (0:ℚ) < 1 - f by linarith))]
  have hnum : 0 ≤ ro / ri - x * (1 - f) * ro / (ri + x * (1 - f)) / x := by linarith
  positivity

/-- Post-trade reserves in one branch: the in-reserve grows to `ri + x`, the
out-reserve shrinks to `ro - out`; the product does not fall below `ri * ro`,
with equality exactly at zero fee, and both components stay positive. -/
lemma prodInvariant_aux (hri : 0 < ri) (hro : 0 < ro) (hx : 0 < x)
    (hf0 : 0 ≤ f) (hf1 : f < 1) :
    ri * ro ≤ (ri + x) * (ro - x * (1 - f) * ro / (ri + x * (1 - f))) ∧
      ((ri + x) * (ro - x * (1 - f) * ro / (ri + x * (1 - f))) = ri * ro ↔ f = 0) ∧
      0 < ri + x ∧ 0 < ro - x * (1 - f) * ro / (ri + x * (1 - f)) := by
  have hc : 0 < x * (1 - f) := mul_pos hx (by linarith)
  have hden : 0 < ri + x * (1 - f) := by linarith
  have hkey : ro - x * (1 - f) * ro / (ri + x * (1 - f)) =
      ro * ri / (ri + x * (1 - f)) := by
    field_simp
    ring
  refine ⟨?_, ?_, by linarith, ?_⟩
  · rw [hkey, ← mul_div_assoc, le_div_iff₀ hden]
    nlinarith [mul_nonneg (mul_nonneg (mul_pos hri hro).le hf0) hx.le]
  · rw [hkey, ← mul_div_assoc, div_eq_iff (ne_of_gt hden)]
    constructor
    · intro heq
      have hzero : ri * ro * x * f = 0 := by nlinarith [heq]
      have hfactor : ri * ro * x ≠ 0 := by positivity
      have : ri * ro * x * f = ri * ro * x * f := rfl
      rcases mul_eq_zero.mp hzero with hz | hz
      · exact absurd hz hfactor
      · exact hz
    · intro hf
      subst hf
      ring
  · rw [hkey]
    positivity

/-- Variant of `prodInvariant_aux` with the two post-trade reserves in the
order they appear in the `B2A` branch of `simulateSwap`. -/
lemma prodInvariant_aux_comm {ri ro f x : ℚ} (hri : 0 < ri) (hro : 0 < ro)
    (hx : 0 < x) (hf0 : 0 ≤ f) (hf1 : f < 1) :
    ro * ri ≤ (ro - x * (1 - f) * ro / (ri + x * (1 - f))) * (ri + x) ∧
      ((ro - x * (1 - f) * ro / (ri + x * (1 - f))) * (ri + x) = ro * ri ↔ f = 0) ∧
      0 < ro - x * (1 - f) * ro / (ri + x * (1 - f)) ∧ 0 < ri + x := by
  obtain ⟨h1, h2, h3, h4⟩ := prodInvariant_aux hri hro hx hf0 hf1
  refine ⟨?_, ?_, h4, h3⟩
  · calc ro * ri = ri * ro := mul_comm ro ri
    _ ≤ (ri + x) * (ro - x * (1 - f) * ro / (ri + x * (1 - f))) := h1
    _ = (ro - x * (1 - f) * ro / (ri + x * (1 - f))) * (ri + x) := mul_comm _ _
  · rw [mul_comm (ro - x * (1 - f) * ro / (ri + x * (1 - f))) (ri + x),
      mul_comm ro ri]
    exact h2

end DerivedAlgebra

/-! ### Claim theorems -/

/-- C1: for every input with `amountIn > 0`, `reserveIn > 0`, `reserveOut > 0`
and `0 ≤ fee < 1`, `getAmountOut` returns exactly the fee-adjusted
constant-product formula
`(amountIn * (1 - fee) * reserveOut) / (reserveIn + amountIn * (1 - fee))`. -/
theorem C1_quote_exact_formula (amountIn reserveIn reserveOut fee : ℚ)
    (hx : 0 < amountIn) (hri : 0 < reserveIn) (hro : 0 < reserveOut)
    (hf0 : 0 ≤ fee) (hf1 : fee < 1) :
    getAmountOut amountIn reserveIn reserveOut fee =
      .ok (amountIn * (1 - fee) * reserveOut /
        (reserveIn + amountIn * (1 - fee))) :=
  getAmountOut_eq_ok hx hri hro hf0 hf1

/-- C1 witness: the formula at `(100, 10000, 10000, 0.003)`. -/
theorem C1_quote_exact_formula_witness :
    getAmountOut 100 10000 10000 (3/1000) =
      .ok (100 * (1 - 3/1000) * 10000 / (10000 + 100 * (1 - 3/1000))) :=
  C1_quote_exact_formula 100 10000 10000 (3/1000) (by norm_num) (by norm_num)
    (by norm_num) (by norm_num) (by norm_num)

/-- C2: for every valid input the quote is strictly positive and strictly
below the out-reserve: `0 < getAmountOut(...) < reserveOut`. -/
theorem C2_quote_bounded (amountIn reserveIn reserveOut fee : ℚ)
    (hx : 0 < amountIn) (hri : 0 < reserveIn) (hro : 0 < reserveOut)
    (hf0 : 0 ≤ fee) (hf1 : fee < 1) :
    ∃ q, getAmountOut amountIn reserveIn reserveOut fee = .ok q ∧
      0 < q ∧ q < reserveOut :=
  ⟨_, getAmountOut_eq_ok hx hri hro hf0 hf1,
    quoteFormula_pos hx hri hro hf0 hf1, quoteFormula_lt hx hri hro hf0 hf1⟩

/-- C2 witness: bounds at `(100, 10000, 10000, 0.003)`. -/
theorem C2_quote_bounded_witness :
    ∃ q, getAmountOut 100 10000 10000 (3/1000) = .ok q ∧
      0 < q ∧ q < 10000 :=
  C2_quote_bounded 100 10000 10000 (3/1000) (by norm_num) (by norm_num)
    (by norm_num) (by norm_num) (by norm_num)

/-- C3: every successful `simulateSwap` call moves exactly one reserve up by
`amountIn` and the other down by `amountOut`, according to the direction. -/
theorem C3_reserve_update (A B f x : ℚ) (d : String) (r : SwapResult)
    (h : simulateSwap A B f d x = .ok r) :
    (normalizeDirection d = "A2B" ∧ r.newReserveA = A + x ∧
      r.newReserveB = B - r.amountOut) ∨
    (normalizeDirection d = "B2A" ∧ r.newReserveB = B + x ∧
      r.newReserveA = A - r.amountOut) := by
  obtain ⟨-, -, -, -, -, hcase⟩ := simulateSwap_ok_inv h
  rcases hcase with ⟨hd, rfl⟩ | ⟨hd, rfl⟩
  · exact Or.inl ⟨hd, rfl, rfl⟩
  · exact Or.inr ⟨hd, rfl, rfl⟩

/-- C3 witness: the reserve update at `(1, 1, 0, "A2B", 1)`. -/
theorem C3_reserve_update_witness :
    (normalizeDirection "A2B" = "A2B" ∧
      (⟨1/2, 2, 1/2, 1/2, 50⟩ : SwapResult).newReserveA = 1 + 1 ∧
      (⟨1/2, 2, 1/2, 1/2, 50⟩ : SwapResult).newReserveB =
        1 - (⟨1/2, 2, 1/2, 1/2, 50⟩ : SwapResult).amountOut) ∨
    (normalizeDirection "A2B" = "B2A" ∧
      (⟨1/2, 2, 1/2, 1/2, 50⟩ : SwapResult).newReserveB = 1 + 1 ∧
      (⟨1/2, 2, 1/2, 1/2, 50⟩ : SwapResult).newReserveA =
        1 - (⟨1/2, 2, 1/2, 1/2, 50⟩ : SwapResult).amountOut) :=
  C3_reserve_update 1 1 0 1 "A2B" ⟨1/2, 2, 1/2, 1/2, 50⟩
    (by norm_num [simulateSwap, getAmountOut, require, normDir_A2B,
      bind, Except.bind, pure, Except.pure])

/-- C4: every successful `simulateSwap` call reports a non-negative slippage
percentage. -/
theorem C4_slippage_nonneg (A B f x : ℚ) (d : String) (r : SwapResult)
    (h : simulateSwap A B f d x = .ok r) :
    0 ≤ r.slippagePercent := by
  obtain ⟨hA, hB, hx, hf0, hf1, hcase⟩ := simulateSwap_ok_inv h
  rcases hcase with ⟨-, rfl⟩ | ⟨-, rfl⟩
  · exact slippage_nonneg_aux hA hB hx hf0 hf1
  · exact slippage_nonneg_aux hB hA hx hf0 hf1

/-- C4 witness: slippage at `(1, 1, 0, "A2B", 1)` is non-negative. -/
theorem C4_slippage_nonneg_witness :
    0 ≤ (⟨1/2, 2, 1/2, 1/2, 50⟩ : SwapResult).slippagePercent :=
  C4_slippage_nonneg 1 1 0 1 "A2B" ⟨1/2, 2, 1/2, 1/2, 50⟩
    (by norm_num [simulateSwap, getAmountOut, require, normDir_A2B,
      bind, Except.bind, pure, Except.pure])

/-- C5: for fixed positive reserves and `0 ≤ fee < 1`, the quote is strictly
increasing in `amountIn`. -/
theorem C5_quote_strict_mono (reserveIn reserveOut fee x₁ x₂ : ℚ)
    (hri : 0 < reserveIn) (hro : 0 < reserveOut)
    (hf0 : 0 ≤ fee) (hf1 : fee < 1) (hx₁ : 0 < x₁) (h₁₂ : x₁ < x₂) :
    ∃ q₁ q₂, getAmountOut x₁ reserveIn reserveOut fee = .ok q₁ ∧
      getAmountOut x₂ reserveIn reserveOut fee = .ok q₂ ∧ q₁ < q₂ :=
  ⟨_, _, getAmountOut_eq_ok hx₁ hri hro hf0 hf1,
    getAmountOut_eq_ok (lt_trans hx₁ h₁₂) hri hro hf0 hf1,
    quoteFormula_strictMono hx₁ h₁₂ hri hro hf0 hf1⟩

/-- C5 witness: monotonicity between `amountIn = 100` and `amountIn = 1000`. -/
theorem C5_quote_strict_mono_witness :
    ∃ q₁ q₂, getAmountOut 100 10000 10000 (3/1000) = .ok q₁ ∧
      getAmountOut 1000 10000 10000 (3/1000) = .ok q₂ ∧ q₁ < q₂ :=
  C5_quote_strict_mono 10000 10000 (3/1000) 100 1000 (by norm_num)
    (by norm_num) (by norm_num) (by norm_num) (by norm_num) (by norm_num)

/-- C6: relabeling invariance — `simulateSwap A B fee "A2B" x` produces the
same `amountOut` as `simulateSwap B A fee "B2A" x`, on every input (both on
success and on failure). -/
theorem C6_direction_symmetry (A B f x : ℚ) :
    Except.map SwapResult.amountOut (simulateSwap A B f "A2B" x) =
      Except.map SwapResult.amountOut (simulateSwap B A f "B2A" x) := by
  by_cases hAB : A > 0 ∧ B > 0
  · by_cases hx : x > 0
    · by_cases hf : f ≥ 0 ∧ f < 1
      · rw [simulateSwap_run_A2B normDir_A2B hAB.1 hAB.2 hx hf.1 hf.2,
          simulateSwap_run_B2A normDir_B2A hAB.2 hAB.1 hx hf.1 hf.2]
        rfl
      · rw [simulateSwap_err_fee hAB (Or.inl normDir_A2B) hx hf,
          simulateSwap_err_fee ⟨hAB.2, hAB.1⟩ (Or.inr normDir_B2A) hx hf]
    · rw [simulateSwap_err_amountIn hAB (Or.inl normDir_A2B) hx,
        simulateSwap_err_amountIn ⟨hAB.2, hAB.1⟩ (Or.inr normDir_B2A) hx]
  · have hBA : ¬ (B > 0 ∧ A > 0) := fun hc => hAB ⟨hc.2, hc.1⟩
    rw [simulateSwap_err_reserves hAB, simulateSwap_err_reserves hBA]

/-- C7: every validation failure is an invalid-input error whose message names
the offending parameter and rule, and is distinct from the pool-drain error;
in particular `simulateSwap 0 10000 0.003 "A2B" 100` fails naming `reserveA`. -/
theorem C7_invalid_input_errors (A B f x : ℚ) (d : String) :
    (¬ (A > 0 ∧ B > 0) →
      simulateSwap A B f d x = .error "reserveA and reserveB must be > 0") ∧
    ((A > 0 ∧ B > 0) → normalizeDirection d ≠ "A2B" →
      normalizeDirection d ≠ "B2A" →
      simulateSwap A B f d x = .error "direction must be A2B or B2A") ∧
    ((A > 0 ∧ B > 0) →
      (normalizeDirection d = "A2B" ∨ normalizeDirection d = "B2A") →
      ¬ x > 0 → simulateSwap A B f d x = .error "amountIn must be > 0") ∧
    ((A > 0 ∧ B > 0) →
      (normalizeDirection d = "A2B" ∨ normalizeDirection d = "B2A") →
      x > 0 → ¬ (f ≥ 0 ∧ f < 1) →
      simulateSwap A B f d x = .error "fee must be in [0, 1)") ∧
    simulateSwap 0 10000 (3/1000) "A2B" 100 =
      .error "reserveA and reserveB must be > 0" ∧
    (∃ s t : String, "reserveA and reserveB must be > 0" =
      s ++ "reserveA" ++ t) ∧
    (∃ s t : String, "direction must be A2B or B2A" = s ++ "direction" ++ t) ∧
    (∃ s t : String, "amountIn must be > 0" = s ++ "amountIn" ++ t) ∧
    (∃ s t : String, "fee must be in [0, 1)" = s ++ "fee" ++ t) ∧
    ("reserveA and reserveB must be > 0" ≠
        "amountOut would drain the pool (invalid trade)" ∧
      "direction must be A2B or B2A" ≠
        "amountOut would drain the pool (invalid trade)" ∧
      "amountIn must be > 0" ≠
        "amountOut would drain the pool (invalid trade)" ∧
      "fee must be in [0, 1)" ≠
        "amountOut would drain the pool (invalid trade)") := by
  refine ⟨fun h => simulateSwap_err_reserves h,
    fun hAB h1 h2 => simulateSwap_err_direction hAB h1 h2,
    fun hAB hd hx => simulateSwap_err_amountIn hAB hd hx,
    fun hAB hd hx hf => simulateSwap_err_fee hAB hd hx hf,
    simulateSwap_err_reserves (by norm_num),
    ⟨"", " and reserveB must be > 0", by decide⟩,
    ⟨"", " must be A2B or B2A", by decide⟩,
    ⟨"", " must be > 0", by decide⟩,
    ⟨"", " must be in [0, 1)", by decide⟩,
    by decide, by decide, by decide, by decide⟩

/-- C7 witness: each validation failure at a concrete input. -/
theorem C7_invalid_input_errors_witness :
    simulateSwap 0 10000 (3/1000) "A2B" 100 =
      .error "reserveA and reserveB must be > 0" ∧
    simulateSwap 10000 10000 (3/1000) "XYZ" 100 =
      .error "direction must be A2B or B2A" ∧
    simulateSwap 10000 10000 (3/1000) "A2B" 0 =
      .error "amountIn must be > 0" ∧
    simulateSwap 10000 10000 2 "A2B" 100 =
      .error "fee must be in [0, 1)" :=
  ⟨(C7_invalid_input_errors 0 10000 (3/1000) 100 "A2B").1 (by norm_num),
   (C7_invalid_input_errors 10000 10000 (3/1000) 100 "XYZ").2.1 (by norm_num)
     (by decide) (by decide),
   (C7_invalid_input_errors 10000 10000 (3/1000) 0 "A2B").2.2.1 (by norm_num)
     (Or.inl normDir_A2B) (by norm_num),
   (C7_invalid_input_errors 10000 10000 2 100 "A2B").2.2.2.1 (by norm_num)
     (Or.inl normDir_A2B) (by norm_num) (by norm_num)⟩

/-- C8: the defensive pool-drain re-assertion is unreachable — every error
`simulateSwap` can return is one of the four validation messages, never the
pool-drained message. -/
theorem C8_pool_drained_unreachable (A B f x : ℚ) (d : String) (e : String)
    (h : simulateSwap A B f d x = .error e) :
    e = "reserveA and reserveB must be > 0" ∨
    e = "direction must be A2B or B2A" ∨
    e = "amountIn must be > 0" ∨
    e = "fee must be in [0, 1)" := by
  by_cases hAB : A > 0 ∧ B > 0
  · by_cases hd : normalizeDirection d = "A2B" ∨ normalizeDirection d = "B2A"
    · by_cases hx : x > 0
      · by_cases hf : f ≥ 0 ∧ f < 1
        · exfalso
          rcases hd with hd | hd
          · rw [simulateSwap_run_A2B hd hAB.1 hAB.2 hx hf.1 hf.2] at h
            exact absurd h (by simp)
          · rw [simulateSwap_run_B2A hd hAB.1 hAB.2 hx hf.1 hf.2] at h
            exact absurd h (by simp)
        · rw [simulateSwap_err_fee hAB hd hx hf] at h
          exact Or.inr (Or.inr (Or.inr (Except.error.inj h).symm))
      · rw [simulateSwap_err_amountIn hAB hd hx] at h
        exact Or.inr (Or.inr (Or.inl (Except.error.inj h).symm))
    · push_neg at hd
      rw [simulateSwap_err_direction hAB hd.1 hd.2] at h
      exact Or.inr (Or.inl (Except.error.inj h).symm)
  · rw [simulateSwap_err_reserves hAB] at h
    exact Or.inl (Except.error.inj h).symm

/-- C8 witness: the error at `(0, 1, 0, "A2B", 1)` is a validation message. -/
theorem C8_pool_drained_unreachable_witness :
    "reserveA and reserveB must be > 0" = "reserveA and reserveB must be > 0" ∨
    "reserveA and reserveB must be > 0" = "direction must be A2B or B2A" ∨
    "reserveA and reserveB must be > 0" = "amountIn must be > 0" ∨
    "reserveA and reserveB must be > 0" = "fee must be in [0, 1)" :=
  C8_pool_drained_unreachable 0 1 0 1 "A2B" "reserveA and reserveB must be > 0"
    (simulateSwap_err_reserves (by norm_num))

/-- C9: the direction argument is case-insensitive and normalized before use:
the result depends only on the uppercase form of the direction, a direction
whose uppercase form is a recognized variant behaves like that variant, and
any other direction fails with the direction error. -/
theorem C9_direction_case_insensitive (A B f x : ℚ) (d d' : String) :
    (normalizeDirection d = normalizeDirection d' →
      simulateSwap A B f d x = simulateSwap A B f d' x) ∧
    ((normalizeDirection d = "A2B" ∨ normalizeDirection d = "B2A") →
      simulateSwap A B f d x =
        simulateSwap A B f (normalizeDirection d) x) ∧
    (A > 0 → B > 0 → normalizeDirection d ≠ "A2B" →
      normalizeDirection d ≠ "B2A" →
      simulateSwap A B f d x = .error "direction must be A2B or B2A") := by
  refine ⟨fun hdd => simulateSwap_congr hdd, fun hd => ?_,
    fun hA hB h1 h2 => simulateSwap_err_direction ⟨hA, hB⟩ h1 h2⟩
  rcases hd with hd | hd
  · exact simulateSwap_congr (by rw [hd, normDir_A2B])
  · exact simulateSwap_congr (by rw [hd, normDir_B2A])

/-- C9 witness: lowercase directions behave like their uppercase forms and an
unrecognized direction fails with the direction error. -/
theorem C9_direction_case_insensitive_witness :
    simulateSwap 10000 10000 (3/1000) "a2b" 100 =
      simulateSwap 10000 10000 (3/1000) "A2B" 100 ∧
    simulateSwap 10000 10000 (3/1000) "b2a" 100 =
      simulateSwap 10000 10000 (3/1000) (normalizeDirection "b2a") 100 ∧
    simulateSwap 10000 10000 (3/1000) "XYZ" 100 =
      .error "direction must be A2B or B2A" :=
  ⟨(C9_direction_case_insensitive 10000 10000 (3/1000) 100 "a2b" "A2B").1
     (by decide),
   (C9_direction_case_insensitive 10000 10000 (3/1000) 100 "b2a" "b2a").2.1
     (Or.inr (by decide)),
   (C9_direction_case_insensitive 10000 10000 (3/1000) 100 "XYZ" "XYZ").2.2
     (by norm_num) (by norm_num) (by decide) (by decide)⟩

/-- C10: for every successful `simulateSwap` call the post-trade reserve
product is at least the pre-trade product, with equality exactly when the fee
is zero, and both post-trade reserves are strictly positive. -/
theorem C10_product_invariant (A B f x : ℚ) (d : String) (r : SwapResult)
    (h : simulateSwap A B f d x = .ok r) :
    A * B ≤ r.newReserveA * r.newReserveB ∧
      (r.newReserveA * r.newReserveB = A * B ↔ f = 0) ∧
      0 < r.newReserveA ∧ 0 < r.newReserveB := by
  obtain ⟨hA, hB, hx, hf0, hf1, hcase⟩ := simulateSwap_ok_inv h
  rcases hcase with ⟨-, rfl⟩ | ⟨-, rfl⟩
  · obtain ⟨h1, h2, h3, h4⟩ := prodInvariant_aux hA hB hx hf0 hf1
    exact ⟨h1, h2, h3, h4⟩
  · obtain ⟨h1, h2, h3, h4⟩ := prodInvariant_aux_comm hB hA hx hf0 hf1
    exact ⟨h1, h2, h3, h4⟩

/-- C10 witness: the product invariant at `(1, 1, 0, "A2B", 1)`. -/
theorem C10_product_invariant_witness :
    1 * 1 ≤ (⟨1/2, 2, 1/2, 1/2, 50⟩ : SwapResult).newReserveA *
        (⟨1/2, 2, 1/2, 1/2, 50⟩ : SwapResult).newReserveB ∧
      ((⟨1/2, 2, 1/2, 1/2, 50⟩ : SwapResult).newReserveA *
          (⟨1/2, 2, 1/2, 1/2, 50⟩ : SwapResult).newReserveB = 1 * 1 ↔
        (0 : ℚ) = 0) ∧
      0 < (⟨1/2, 2, 1/2, 1/2, 50⟩ : SwapResult).newReserveA ∧
      0 < (⟨1/2, 2, 1/2, 1/2, 50⟩ : SwapResult).newReserveB :=
  C10_product_invariant 1 1 0 1 "A2B" ⟨1/2, 2, 1/2, 1/2, 50⟩
    (by norm_num [simulateSwap, getAmountOut, require, normDir_A2B,
      bind, Except.bind, pure, Except.pure])

end AmmSim
